import Mathlib

/-!
Verification of the sapy demo scripts.

The development embeds the two source scripts:
* `src/src/figures/F5_30_filter_images.py` — the image-filter demo
  (kernels, 2-D correlation with reflect boundary handling, thresholding);
* `src/sap/code_quantlets/SAP_show_plots.py` — the statistical-plot gallery
  (styling-collaborator fallback, the `printout` persistence helper,
  the errorbar and pie data, the seeded pseudo-random draws).

Images are modelled as functions `ℕ → ℕ → ℚ` together with explicit
dimensions `m × n`; only indices below the dimensions are ever read,
out-of-range reads being redirected by the boundary reflection.
-/

namespace Sapy

/-- Boundary index mapping of `scipy.ndimage.correlate` in its default
`mode='reflect'` (half-sample symmetric extension
`(d c b a | a b c d | d c b a)`): an arbitrary integer index is folded
into `[0, m)`.  The extension is periodic with period `2*m`. -/
def reflectIdx (m : ℕ) (i : ℤ) : ℕ :=
  if m = 0 then 0
  else
    let j := (i % (2 * (m : ℤ))).toNat
    if j < m then j else 2 * m - 1 - j

/-- An in-range index is left unchanged by the reflect boundary handling. -/
theorem reflectIdx_of_mem (m : ℕ) (i : ℤ) (h0 : 0 ≤ i) (h1 : i < (m : ℤ)) :
    reflectIdx m i = i.toNat := by
  have hm : m ≠ 0 := by
    intro h
    subst h
    simp at h1
    omega
  have h2m : (0 : ℤ) < 2 * (m : ℤ) := by positivity
  have hmod : i % (2 * (m : ℤ)) = i := Int.emod_eq_of_lt h0 (by omega)
  simp only [reflectIdx, hm, if_false]
  rw [hmod]
  have : i.toNat < m := by omega
  simp [this]

/-- `ndimage.correlate` of an `m × n` image with a `kh × kw` kernel, at
output pixel `(r, c)`: the sum of elementwise products between the kernel
and the neighbourhood centred (via the default origin `kh/2`, `kw/2`) at
`(r, c)`, out-of-range reads reflected at the borders. -/
def correlate (kh kw : ℕ) (K : ℕ → ℕ → ℚ) (m n : ℕ)
    (img : ℕ → ℕ → ℚ) (r c : ℕ) : ℚ :=
  ∑ u in Finset.range kh, ∑ v in Finset.range kw,
    K u v * img (reflectIdx m ((r : ℤ) + (u : ℤ) - ((kh / 2 : ℕ) : ℤ)))
                (reflectIdx n ((c : ℤ) + (v : ℤ) - ((kw / 2 : ℕ) : ℤ)))

/-- `Filters[0] = np.ones((11,11))/121`: the 11×11 uniform averaging
kernel, as a function (zero outside its 11×11 extent). -/
def Filters0 : ℕ → ℕ → ℚ := fun u v =>
  if u < 11 ∧ v < 11 then 1 / 121 else 0

/-- `Filters[1] = np.array([np.ones(11), np.zeros(11), -1*np.ones(11)])`:
the 3×11 kernel whose first row is all ones, middle row zeros, last row
negative ones (the horizontal-edge detector), as a function (zero outside
its 3×11 extent). -/
def Filters1 : ℕ → ℕ → ℚ := fun u v =>
  if v < 11 then
    (if u = 0 then 1 else if u = 1 then 0 else if u = 2 then -1 else 0)
  else 0

/-- `Filters[2] = Filters[-1].T`: the transpose of `Filters[1]`
(the vertical-edge detector). -/
def Filters2 : ℕ → ℕ → ℚ := fun u v => Filters1 v u

/-- C2: the horizontal-edge kernel is the transpose of the vertical-edge
kernel, and for every image the transpose of the image correlated with
`Filters[1]` agrees with the transposed image correlated with
`Filters[2]`: at each pixel `(r, c)` of the transposed output,
reading the `Filters[1]`-filtered image at `(c, r)` gives the same value
as correlating the transposed image with `Filters[2]` at `(r, c)`. -/
theorem correlate_transpose_comm :
    (∀ u v, Filters1 u v = Filters2 v u) ∧
    ∀ (m n : ℕ) (img : ℕ → ℕ → ℚ) (r c : ℕ),
      correlate 3 11 Filters1 m n img c r
        = correlate 11 3 Filters2 n m (fun i j => img j i) r c := by
  constructor
  · intro u v
    rfl
  · intro m n img r c
    unfold correlate Filters2
    rw [Finset.sum_comm]

/-- Correlating a constant image with any kernel multiplies the constant
by the sum of the kernel entries. -/
theorem correlate_const (kh kw : ℕ) (K : ℕ → ℕ → ℚ) (m n : ℕ) (k : ℚ)
    (r c : ℕ) :
    correlate kh kw K m n (fun _ _ => k) r c
      = (∑ u in Finset.range kh, ∑ v in Finset.range kw, K u v) * k := by
  unfold correlate
  rw [Finset.sum_mul]
  refine Finset.sum_congr rfl fun u _ => ?_
  rw [Finset.sum_mul]

/-- C9: the averaging kernel's entries sum to 1, each edge kernel's
entries sum to 0, and consequently on every constant image the edge
kernels produce the all-zero image while the averaging kernel reproduces
the constant image. -/
theorem kernel_sum_invariants :
    (∑ u in Finset.range 11, ∑ v in Finset.range 11, Filters0 u v) = 1 ∧
    (∑ u in Finset.range 3, ∑ v in Finset.range 11, Filters1 u v) = 0 ∧
    (∑ u in Finset.range 11, ∑ v in Finset.range 3, Filters2 u v) = 0 ∧
    ∀ (k : ℚ) (m n r c : ℕ),
      correlate 11 11 Filters0 m n (fun _ _ => k) r c = k ∧
      correlate 3 11 Filters1 m n (fun _ _ => k) r c = 0 ∧
      correlate 11 3 Filters2 m n (fun _ _ => k) r c = 0 := by
  have h0 : (∑ u in Finset.range 11, ∑ v in Finset.range 11, Filters0 u v)
      = 1 := by
    simp [Filters0, Finset.sum_range_succ]
    norm_num
  have h1 : (∑ u in Finset.range 3, ∑ v in Finset.range 11, Filters1 u v)
      = 0 := by
    simp [Filters1, Finset.sum_range_succ]
    norm_num
  have h2 : (∑ u in Finset.range 11, ∑ v in Finset.range 3, Filters2 u v)
      = 0 := by
    simp [Filters2, Filters1, Finset.sum_range_succ]
  refine ⟨h0, h1, h2, fun k m n r c => ⟨?_, ?_, ?_⟩⟩
  · rw [correlate_const, h0, one_mul]
  · rw [correlate_const, h1, zero_mul]
  · rw [correlate_const, h2, zero_mul]

/-- C3: at an interior pixel (the full 11×11 neighbourhood lies inside the
`m × n` image), correlating the float-cast image with the averaging kernel
gives the arithmetic mean of the 11×11 neighbourhood of the source image
centred there. -/
theorem average_filter_interior (m n r c : ℕ) (img : ℕ → ℕ → ℕ)
    (h1 : 5 ≤ r) (h2 : r + 5 < m) (h3 : 5 ≤ c) (h4 : c + 5 < n) :
    correlate 11 11 Filters0 m n (fun i j => ((img i j : ℕ) : ℚ)) r c
      = (∑ u in Finset.range 11, ∑ v in Finset.range 11,
          ((img (r - 5 + u) (c - 5 + v) : ℕ) : ℚ)) / 121 := by
  unfold correlate
  rw [Finset.sum_div]
  refine Finset.sum_congr rfl fun u hu => ?_
  rw [Finset.sum_div]
  refine Finset.sum_congr rfl fun v hv => ?_
  simp only [Finset.mem_range] at hu hv
  have hhalf : ((11 / 2 : ℕ) : ℤ) = 5 := by norm_num
  have er : reflectIdx m ((r : ℤ) + (u : ℤ) - ((11 / 2 : ℕ) : ℤ))
      = r - 5 + u := by
    rw [hhalf, reflectIdx_of_mem m _ (by omega) (by omega)]
    omega
  have ec : reflectIdx n ((c : ℤ) + (v : ℤ) - ((11 / 2 : ℕ) : ℤ))
      = c - 5 + v := by
    rw [hhalf, reflectIdx_of_mem n _ (by omega) (by omega)]
    omega
  rw [er, ec]
  have hF : Filters0 u v = 1 / 121 := by
    simp [Filters0, hu, hv]
  rw [hF]
  ring

/-- Witness for C3: the averaging filter at the centre of an 11×11 image
whose pixel `(i, j)` holds `i + j`. -/
theorem average_filter_interior_witness :
    (5 ≤ 5 ∧ 5 + 5 < 11) ∧
    correlate 11 11 Filters0 11 11
        (fun i j => (((fun i j => i + j) i j : ℕ) : ℚ)) 5 5
      = (∑ u in Finset.range 11, ∑ v in Finset.range 11,
          (((fun i j => i + j) (5 - 5 + u) (5 - 5 + v) : ℕ) : ℚ)) / 121 :=
  ⟨⟨by omega, by omega⟩,
   average_filter_interior 11 11 5 5 (fun i j => i + j)
     (by omega) (by omega) (by omega) (by omega)⟩

/-- `filtered[1] > 125`, pixelwise: the boolean mask from thresholding the
horizontal-edge output at 125. -/
def mask1 (m n : ℕ) (img : ℕ → ℕ → ℚ) (r c : ℕ) : Bool :=
  decide (125 < correlate 3 11 Filters1 m n img r c)

/-- `filtered[2] > 125`, pixelwise: the boolean mask from thresholding the
vertical-edge output at 125. -/
def mask2 (m n : ℕ) (img : ℕ → ℕ → ℚ) (r c : ℕ) : Bool :=
  decide (125 < correlate 11 3 Filters2 m n img r c)

/-- C4: each threshold mask is `true` at a pixel exactly when the
corresponding edge-filtered value there is strictly greater than 125. -/
theorem threshold_mask_iff :
    ∀ (m n : ℕ) (img : ℕ → ℕ → ℚ) (r c : ℕ),
      (mask1 m n img r c = true ↔ 125 < correlate 3 11 Filters1 m n img r c)
      ∧
      (mask2 m n img r c = true ↔
        125 < correlate 11 3 Filters2 m n img r c) := by
  intro m n img r c
  constructor
  · simp [mask1]
  · simp [mask2]

/-- `x = np.arange(5)` of the errorbar section, as rationals. -/
def errorbar_x : List ℚ := (List.range 5).map fun i => (i : ℚ)

/-- `y = x**2` of the errorbar section. -/
def errorbar_y : List ℚ := errorbar_x.map fun v => v ^ 2

/-- `errorBar = x/2` of the errorbar section. -/
def errorBar : List ℚ := errorbar_x.map fun v => v / 2

/-- C5: in the errorbar demo the y-values are the squares `[0,1,4,9,16]`
of `x = [0,1,2,3,4]` and the error magnitudes are the halves
`[0, 0.5, 1, 1.5, 2]`. -/
theorem errorbar_values :
    errorbar_x = [0, 1, 2, 3, 4] ∧
    errorbar_y = [0, 1, 4, 9, 16] ∧
    errorBar = [0, 1 / 2, 1, 3 / 2, 2] := by
  refine ⟨?_, ?_, ?_⟩
  · simp [errorbar_x, List.range_succ]
  · simp [errorbar_y, errorbar_x, List.range_succ]
    norm_num
  · simp [errorBar, errorbar_x, List.range_succ]
    norm_num

/-- `fractions = [45, 30, 15, 10]` of the pie section. -/
def fractions : List ℚ := [45, 30, 15, 10]

/-- `offsets = (0, 0.05, 0, 0)` of the pie section. -/
def offsets : List ℚ := [0, 1 / 20, 0, 0]

/-- C8: the pie fractions sum to 100, and among the four explode offsets
exactly the one at index 1 is non-zero, with value 0.05. -/
theorem pie_fractions_offsets :
    fractions.sum = 100 ∧
    offsets.getD 1 0 = 1 / 20 ∧
    ((List.range 4).filter fun i => decide (offsets.getD i 0 ≠ 0)) = [1] := by
  refine ⟨?_, ?_, ?_⟩
  · norm_num [fractions]
  · norm_num [offsets]
  · norm_num [offsets, List.range_succ]

/-- One step of the pseudo-random source.  The spec treats the source of
pseudo-random numbers as an opaque, seedable, deterministic external
service; it is modelled by a 64-bit linear congruential generator. -/
def rngStep (s : ℕ) : ℕ :=
  (6364136223846793005 * s + 1442695040888963407) % 2 ^ 64

/-- `np.random.seed(k)`: the generator state is replaced by the seed; the
previous state is discarded. -/
def rngSeed (k : ℕ) (_ : ℕ) : ℕ := k

/-- One draw from the source: a rational in `[0, 1)` and the next state. -/
def rngDraw (s : ℕ) : ℚ × ℕ :=
  ((rngStep s % 2 ^ 32 : ℕ) / 2 ^ 32, rngStep s)

/-- `n` consecutive draws from the source. -/
def rngDraws : ℕ → ℕ → List ℚ × ℕ
  | 0, s => ([], s)
  | Nat.succ n, s =>
    let p := rngDraw s
    let q := rngDraws n p.2
    (p.1 :: q.1, q.2)

/-- The pseudo-random draws of the gallery in program order:
`np.random.seed(1234)`, the 500-element sample, then `np.random.seed(1234)`
again followed by the 10×4 table (40 draws) and the 50×3 table
(150 draws). -/
def gallerySamples (s0 : ℕ) : List ℚ × List ℚ × List ℚ :=
  let s1 := rngSeed 1234 s0
  let p := rngDraws 500 s1
  let s2 := rngSeed 1234 p.2
  let q := rngDraws 40 s2
  let t := rngDraws 150 q.2
  (p.1, q.1, t.1)

/-- C7: the gallery's sample arrays are identical across runs — they do
not depend on the generator state the run starts from, because each
stochastic section first re-seeds with the fixed seed 1234. -/
theorem gallery_samples_reproducible :
    ∀ s t : ℕ, gallerySamples s = gallerySamples t := fun _ _ => rfl

/-- Observable effects of the styling functions. -/
inductive Effect where
  | setFontSize : ℕ → Effect
  | saveFig : String → Effect
  | display : Effect
deriving DecidableEq

/-- The pair of styling functions a script binds at import time. -/
structure StyleFns where
  setF : ℕ → List Effect
  showD : String → List Effect

/-- Modelled from the spec: the optional styling collaborator
(`utilities.SAP_mystyle` / `utilities.my_style`, absent from `src/`)
supplies one function setting a global font scale and one saving and then
displaying a named figure. -/
def myStyle : StyleFns :=
  ⟨fun k => [Effect.setFontSize k], fun f => [Effect.saveFig f, Effect.display]⟩

/-- The fallback bound in the `except ImportError` branch of
`SAP_show_plots.py`: `setFonts(*options)` returns with no effect and
`showData(*options)` only calls `plt.show()`. -/
def fallbackStyle : StyleFns := ⟨fun _ => [], fun _ => [Effect.display]⟩

/-- Import-time behaviour of `SAP_show_plots.py` given whether the styling
collaborator is importable: the `try/except ImportError` block catches the
failed import and binds the fallback functions instead. -/
def sapShowPlotsInit (available : Bool) : Except Unit StyleFns :=
  match (if available then Except.ok myStyle else Except.error ()) with
  | Except.ok s => Except.ok s
  | Except.error _ => Except.ok fallbackStyle

/-- Import-time behaviour of `F5_30_filter_images.py`: the script imports
`set_fonts, show_data` from the collaborator unconditionally, with no
`try/except`, so when the collaborator is missing the `ImportError`
propagates and the script never runs. -/
def f530Init (available : Bool) : Except Unit StyleFns :=
  if available then Except.ok myStyle else Except.error ()

/-- Counterexample to C1: not every demo of the repository survives a
missing styling collaborator — the image-filter demo's import fails. -/
theorem style_fallback_counterexample :
    ¬ ∀ init ∈ [sapShowPlotsInit, f530Init], ∃ s, init false = Except.ok s := by
  intro h
  obtain ⟨s, hs⟩ := h f530Init (by simp)
  simp [f530Init] at hs

/-- C1 amended: the statistical-plot gallery degrades to plain display
when the styling collaborator is absent — its import succeeds with the
fallback, whose font setter has no effect and whose save-and-display
function only displays — but the image-filter demo imports the
collaborator unconditionally and fails with an import error when it is
absent. -/
theorem style_fallback_amended :
    sapShowPlotsInit false = Except.ok fallbackStyle ∧
    (∀ k, fallbackStyle.setF k = []) ∧
    (∀ f, fallbackStyle.showD f = [Effect.display]) ∧
    f530Init false = Except.error () := by
  refine ⟨rfl, fun k => rfl, fun f => rfl, rfl⟩

/-- The state of the current figure, restricted to the features `printout`
touches: labels, title, x-limits, horizontal lines (as `(y, xmin, xmax)`
triples) and whether a tight-layout adjustment has been applied. -/
structure Figure where
  xlabel : String
  ylabel : String
  title : String
  xlim : ℚ × ℚ
  hlines : List (ℚ × ℚ × ℚ)
  tightLayoutApplied : Bool
deriving DecidableEq

/-- The fresh current figure after `plt.close()`. -/
def emptyFigure : Figure := ⟨"", "", "", (0, 1), [], false⟩

/-- `plt.tight_layout()`.  `printout` names this attribute on its line 48
but never calls it, so this function appears in no transition of
`printout`. -/
def tightLayout (f : Figure) : Figure := { f with tightLayoutApplied := true }

/-- `plt.hlines(y, x1, x2)`: the line is recorded and the x-limits
autoscale to the data hull with matplotlib's default 5% margins. -/
def plotHlines (y x1 x2 : ℚ) (f : Figure) : Figure :=
  let lo := min f.xlim.1 x1
  let hi := max f.xlim.2 x2
  { f with
      hlines := f.hlines ++ [(y, x1, x2)]
      xlim := (lo - (hi - lo) / 20, hi + (hi - lo) / 20) }

/-- The observable world of the plotting process: the current figure, the
files written so far (each with a snapshot of the figure it holds), the
console lines printed, the number of figures displayed, and which
directories the file system lets us write into. -/
structure World where
  fig : Figure
  files : List (String × Figure)
  console : List String
  shown : ℕ
  writableDirs : List String
deriving DecidableEq

/-- `os.path.join(dir, file)` for a relative file name. -/
def pathJoin (dir file : String) : String := dir ++ "/" ++ file

/-- The figure-state part of the `printout` transition: labels and title
set, the bare `plt.tight_layout` attribute access performing nothing, the
y = 0 dashed line drawn across the current x-limits, and the x-limits
restored afterwards. -/
def savedFigure (xlabel ylabel title : String) (f : Figure) : Figure :=
  let f1 : Figure := { f with xlabel := xlabel, ylabel := ylabel, title := title }
  let xlim := f1.xlim
  let f2 := plotHlines 0 xlim.1 xlim.2 f1
  { f2 with xlim := xlim }

/-- The world after a successful `printout` call: the file written with a
snapshot of the figure, the two messages printed, one more figure shown,
and the current figure closed. -/
def printoutWorld (outFile xlabel ylabel title outDir : String)
    (w : World) : World :=
  { fig := emptyFigure
    files := w.files
      ++ [(pathJoin outDir outFile, savedFigure xlabel ylabel title w.fig)]
    console :=
      w.console ++ ["OutDir: " ++ outDir, "Figure saved to " ++ outFile]
    shown := w.shown + 1
    writableDirs := w.writableDirs }

/-- `printout(outFile, xlabel, ylabel, title, outDir)` of
`SAP_show_plots.py`: update the figure as in `savedFigure`; save the
figure to `os.path.join(outDir, outFile)` (a failing write propagates as
an error); print the `OutDir:` and `Figure saved to` messages; show the
figure and close it. -/
def printout (outFile xlabel ylabel title outDir : String) (w : World) :
    Except String World :=
  if outDir ∈ w.writableDirs then
    Except.ok (printoutWorld outFile xlabel ylabel title outDir w)
  else
    Except.error (pathJoin outDir outFile)

/-- C6: when the output directory is writable, `printout` returns
successfully; afterwards a file exists at `<outDir>/<outFile>`, the
console holds messages naming the directory and the file name, and the
figure saved into that file carries a horizontal line at y = 0 spanning
the x-range that was current when `printout` started. -/
theorem printout_persists (outFile xlabel ylabel title outDir : String)
    (w : World) (h : outDir ∈ w.writableDirs) :
    ∃ w' fig,
      printout outFile xlabel ylabel title outDir w = Except.ok w' ∧
      (pathJoin outDir outFile, fig) ∈ w'.files ∧
      ("OutDir: " ++ outDir) ∈ w'.console ∧
      ("Figure saved to " ++ outFile) ∈ w'.console ∧
      (0, w.fig.xlim.1, w.fig.xlim.2) ∈ fig.hlines := by
  refine ⟨printoutWorld outFile xlabel ylabel title outDir w,
    savedFigure xlabel ylabel title w.fig, ?_, ?_, ?_, ?_, ?_⟩
  · simp [printout, h]
  · simp [printoutWorld]
  · simp [printoutWorld]
  · simp [printoutWorld]
  · simp [savedFigure, plotHlines]

/-- Witness for C6 at a concrete call: saving `scatterPlot.png` into the
current directory from a fresh world whose only writable directory is
`"."`. -/
theorem printout_persists_witness :
    "." ∈ (World.mk emptyFigure [] [] 0 ["."]).writableDirs ∧
    ∃ w' fig,
      printout "scatterPlot.png" "Datapoints" "Values" "Scatter" "."
          (World.mk emptyFigure [] [] 0 ["."]) = Except.ok w' ∧
      (pathJoin "." "scatterPlot.png", fig) ∈ w'.files ∧
      ("OutDir: " ++ ".") ∈ w'.console ∧
      ("Figure saved to " ++ "scatterPlot.png") ∈ w'.console ∧
      (0, (World.mk emptyFigure [] [] 0 ["."]).fig.xlim.1,
        (World.mk emptyFigure [] [] 0 ["."]).fig.xlim.2) ∈ fig.hlines :=
  ⟨by simp,
   printout_persists "scatterPlot.png" "Datapoints" "Values" "Scatter" "."
     (World.mk emptyFigure [] [] 0 ["."]) (by simp)⟩

/-- C10: `printout` applies no tight-layout adjustment — the saved
figure's layout flag equals the one of the figure `printout` started
from — and the saved figure's x-limits equal the x-limits in effect
before the y = 0 reference line was drawn (they are restored after the
line is drawn). -/
theorem printout_no_tight_layout (outFile xlabel ylabel title outDir : String)
    (w : World) (h : outDir ∈ w.writableDirs) :
    ∃ w' fig,
      printout outFile xlabel ylabel title outDir w = Except.ok w' ∧
      w'.files = w.files ++ [(pathJoin outDir outFile, fig)] ∧
      fig.tightLayoutApplied = w.fig.tightLayoutApplied ∧
      fig.xlim = w.fig.xlim := by
  refine ⟨printoutWorld outFile xlabel ylabel title outDir w,
    savedFigure xlabel ylabel title w.fig, ?_, ?_, ?_, ?_⟩
  · simp [printout, h]
  · simp [printoutWorld]
  · simp [savedFigure, plotHlines]
  · rfl

/-- Witness for C10 at a concrete call: saving `histogram_plain.png` into
the current directory from a fresh world whose only writable directory is
`"."`. -/
theorem printout_no_tight_layout_witness :
    "." ∈ (World.mk emptyFigure [] [] 0 ["."]).writableDirs ∧
    ∃ w' fig,
      printout "histogram_plain.png" "Data Values" "Frequency"
          "Histogram, default settings" "."
          (World.mk emptyFigure [] [] 0 ["."]) = Except.ok w' ∧
      w'.files = (World.mk emptyFigure [] [] 0 ["."]).files
        ++ [(pathJoin "." "histogram_plain.png", fig)] ∧
      fig.tightLayoutApplied
        = (World.mk emptyFigure [] [] 0 ["."]).fig.tightLayoutApplied ∧
      fig.xlim = (World.mk emptyFigure [] [] 0 ["."]).fig.xlim :=
  ⟨by simp,
   printout_no_tight_layout "histogram_plain.png" "Data Values" "Frequency"
     "Histogram, default settings" "."
     (World.mk emptyFigure [] [] 0 ["."]) (by simp)⟩

end Sapy
